import Mathlib

/-
Verification of the OpenFlow kernel datapath (src/datapath/datapath.c).

The definitions below are a shallow embedding of the C functions named in
the comments.  Machine integers are modelled as Nat with explicit
wrap-around (% 2^32, % 2^64) where the C code can overflow; fallible
allocations are modelled by explicit boolean oracles; socket buffers are
reduced to the observable quantities each claim talks about (lengths,
port numbers, emitted records, return codes).
-/

namespace Openflow

/-! Constants from the OpenFlow 1.0 headers and the datapath source. -/

def DP_MAX : Nat := 256
def DP_MAX_PORTS : Nat := 256
def ETH_HLEN : Nat := 14
def VLAN_HLEN : Nat := 4
def OFP_VERSION : Nat := 1

def OFPP_IN_PORT : Nat := 0xfff8
def OFPP_TABLE : Nat := 0xfff9
def OFPP_NORMAL : Nat := 0xfffa
def OFPP_FLOOD : Nat := 0xfffb
def OFPP_ALL : Nat := 0xfffc
def OFPP_CONTROLLER : Nat := 0xfffd
def OFPP_LOCAL : Nat := 0xfffe
def OFPP_NONE : Nat := 0xffff

def OFPPC_NO_FLOOD : Nat := 16
def OFPPC_NO_FWD : Nat := 32

def OFPET_HELLO_FAILED : Nat := 0
def OFPHFC_INCOMPATIBLE : Nat := 0

/-! Linux error numbers (returned negated, as in the source). -/

def ENOENT : Int := 2
def ESRCH : Int := 3
def E2BIG : Int := 7
def ENOMEM : Int := 12
def EBUSY : Int := 16
def EEXIST : Int := 17
def ENODEV : Int := 19
def EINVAL : Int := 22
def EXFULL : Int := 52

/-!
## Ports and the flood/all expansion (output_all, datapath.c:574-603)

A bridge port is reduced to the three fields output_all reads: its port
number, the identity of its underlying net_device, and its OpenFlow
config bits.  The ingress device of the frame is the identity stored in
skb->dev.  skb_clone is modelled by an oracle cloneOk: cloneOk n tells
whether the n-th clone allocation of this call succeeds.
-/

structure BridgePort where
  port_no : Nat
  dev : Nat
  config : Nat
deriving DecidableEq, Repr

/-- Eligibility test of output_all's loop: the port is skipped when its
device is the frame's ingress device or when any of the 'disable' bits
(OFPPC_NO_FLOOD for FLOOD, none for ALL) is set in its config. -/
def floodEligible (skbDev disable : Nat) (p : BridgePort) : Bool :=
  !(p.dev == skbDev) && (p.config &&& disable == 0)

/-- Observable outcome of one output_all call: the ports handed a frame
by dp_output_port in order, the number of skb_clone allocations, the
port (if any) on which the original buffer was sent, whether the
original was freed without being sent, and the return value. -/
structure FloodLog where
  transmits : List Nat
  clones : Nat
  origSentOn : Option Nat
  origFreed : Bool
  ret : Int
deriving DecidableEq, Repr

/-- Loop of output_all: 'prev' is the deferred port (prev_port, -1
encoded as none), 'n' the number of clones allocated so far.  After the
walk the original frame goes out on the deferred port, or is freed when
no port was eligible; an eligible port with a deferral pending clones
the frame for the deferred port first, and a failed clone frees the
original and aborts with -ENOMEM. -/
def output_all_go (skbDev disable : Nat) (cloneOk : Nat → Bool) :
    List BridgePort → Option Nat → Nat → FloodLog
  | [], some pn, n =>
    { transmits := [pn], clones := n, origSentOn := some pn,
      origFreed := false, ret := 0 }
  | [], none, n =>
    { transmits := [], clones := n, origSentOn := none,
      origFreed := true, ret := 0 }
  | p :: ps, none, n =>
    if p.dev == skbDev || p.config &&& disable != 0 then
      output_all_go skbDev disable cloneOk ps none n
    else
      output_all_go skbDev disable cloneOk ps (some p.port_no) n
  | p :: ps, some pn, n =>
    if p.dev == skbDev || p.config &&& disable != 0 then
      output_all_go skbDev disable cloneOk ps (some pn) n
    else if cloneOk n then
      let l := output_all_go skbDev disable cloneOk ps (some p.port_no) (n + 1)
      { l with transmits := pn :: l.transmits }
    else
      { transmits := [], clones := n, origSentOn := none,
        origFreed := true, ret := -ENOMEM }

/-- Disable mask of output_all (datapath.c:577): OFPPC_NO_FLOOD for
FLOOD, nothing for ALL. -/
def floodDisable (flood : Bool) : Nat :=
  if flood then OFPPC_NO_FLOOD else 0

/-- output_all (datapath.c:574): walk dp's port_list with prev_port = -1
and no clones yet.  'flood' selects OFPPC_NO_FLOOD as the disable mask. -/
def output_all (ports : List BridgePort) (skbDev : Nat) (flood : Bool)
    (cloneOk : Nat → Bool) : FloodLog :=
  output_all_go skbDev (floodDisable flood) cloneOk ports none 0

/-- The ports of 'ports' that output_all will hand a frame, in list order. -/
def eligList (ports : List BridgePort) (skbDev disable : Nat) : List BridgePort :=
  ports.filter (floodEligible skbDev disable)

/-- Closed form of output_all when every clone allocation succeeds, as a
function of the pending transmit list (deferred port followed by the
remaining eligible ports) and the clones allocated so far. -/
def chainLog : List Nat → Nat → FloodLog
  | [], n =>
    { transmits := [], clones := n, origSentOn := none,
      origFreed := true, ret := 0 }
  | pn :: rest, n =>
    { transmits := pn :: rest, clones := n + rest.length,
      origSentOn := (pn :: rest).getLast?, origFreed := false, ret := 0 }

/-!
## Packet length and transmit policy (packet_length, dp_xmit_skb, datapath.c:563-636)
-/

/-- packet_length (datapath.c:563): skb->len - ETH_HLEN, minus VLAN_HLEN
when the frame's protocol is 802.1Q, computed in 32-bit unsigned
arithmetic. -/
def packet_length (len : Nat) (tagged : Bool) : Nat :=
  (len + 2 ^ 32 - ETH_HLEN - (if tagged then VLAN_HLEN else 0)) % 2 ^ 32

/-- Outcome of dp_xmit_skb: whether the frame was freed without transmit,
and the return value (skb->len on success). -/
structure XmitOut where
  dropped : Bool
  ret : Int
deriving DecidableEq, Repr

/-- dp_xmit_skb (datapath.c:620): drop with -E2BIG when the packet length
exceeds the egress device MTU and the skb is not GSO; otherwise hand to
dev_queue_xmit and return the frame length. -/
def dp_xmit_skb (len mtu : Nat) (tagged gso : Bool) : XmitOut :=
  if packet_length len tagged > mtu && !gso then
    { dropped := true, ret := -E2BIG }
  else
    { dropped := false, ret := (len : Int) }

/-!
## Message construction (alloc_openflow_skb, datapath.c:203-235)
-/

/-- alloc_openflow_skb (datapath.c:203): refuse (null result) when the
OpenFlow message would not fit a 16-bit length field; otherwise the
result depends on the genlmsg_new allocation, modelled by 'memOk'.
Note the source adds sizeof(struct ofp_header) = 8 to 'openflow_len'
(which already counts the header) before comparing with UINT16_MAX. -/
def alloc_openflow_skb (openflow_len : Nat) (memOk : Bool) : Option Unit :=
  if openflow_len + 8 > 65535 then none
  else if memOk then some () else none

/-!
## Packet-in (dp_output_control, datapath.c:724-763)
-/

/-- Fields of the PACKET_IN message that dp_output_control writes. -/
structure PacketInMsg where
  buffer_id : Nat
  total_len : Nat
  in_port : Nat
  reason : Nat
  payload_len : Nat
deriving DecidableEq, Repr

/-- Byte offset of the 'data' member of struct ofp_packet_in: 8-byte
OpenFlow header + buffer_id(4) + total_len(2) + in_port(2) + reason(1)
+ pad(1). -/
def OFP_PACKET_IN_DATA_OFFSET : Nat := 18

/-- dp_output_control (datapath.c:724).  'bufferId' is the id returned by
fwd_save_skb (0xffffffff when the packet was not stashed), 'ingress' the
port number of skb->dev->br_port when the frame has an ingress bridge
port.  Returns the PACKET_IN message sent (none when construction
failed) and the function's return value.  total_len is stored through
htons, hence the mod 2^16. -/
def dp_output_control (skbLen maxLen reason bufferId : Nat)
    (ingress : Option Nat) (memOk : Bool) : Option PacketInMsg × Int :=
  let fwdLen := if bufferId ≠ 4294967295 then min skbLen maxLen else skbLen
  let opiLen := OFP_PACKET_IN_DATA_OFFSET + fwdLen
  if (alloc_openflow_skb opiLen memOk).isNone then (none, -ENOMEM)
  else
    (some { buffer_id := bufferId, total_len := skbLen % 2 ^ 16,
            in_port := ingress.getD OFPP_LOCAL,
            reason := reason, payload_len := fwdLen }, 0)

/-!
## Per-port output dispatch (dp_output_port, datapath.c:640-718)
-/

/-- Outcome of dp_output_port: either the frame is handed on (transmit
with the chosen device, or one of the virtual-port continuations), or it
is freed with the given return value. -/
inductive PortOut where
  | transmit (dev : Nat)
  | toTable
  | toFlood
  | toAll
  | toController
  | toLocal
  | drop (ret : Int)
deriving DecidableEq, Repr

/-- dp_output_port (datapath.c:640).  'ports' is dp->ports (slots 0 ..
DP_MAX_PORTS-1), 'skbDev' the frame's device (none when skb->dev is
null), 'out_port' the 16-bit action port. -/
def dp_output_port (ports : Nat → Option BridgePort) (skbDev : Option Nat)
    (out_port : Nat) (ignore_no_fwd : Bool) : PortOut :=
  if out_port = OFPP_IN_PORT then
    match skbDev with
    | none => .drop (-ESRCH)
    | some d => .transmit d
  else if out_port = OFPP_TABLE then .toTable
  else if out_port = OFPP_FLOOD then .toFlood
  else if out_port = OFPP_ALL then .toAll
  else if out_port = OFPP_CONTROLLER then .toController
  else if out_port = OFPP_LOCAL then .toLocal
  else if out_port < DP_MAX_PORTS then
    match ports out_port with
    | none => .drop (-ENOENT)
    | some p =>
      if skbDev = some p.dev then .drop (-EINVAL)
      else if p.config &&& OFPPC_NO_FWD != 0 && !ignore_no_fwd then .drop 0
      else .transmit p.dev
  else .drop (-ENOENT)

/-!
## Hello handshake (dp_send_hello, datapath.c:934-957)
-/

/-- dp_send_error_msg (datapath.c:1084) reduced to its observable effect:
the (type, code) error actually sent, none when the allocation failed,
together with the return value. -/
def dp_send_error_msg (etype code : Nat) (allocOk : Bool) :
    Option (Nat × Nat) × Int :=
  match alloc_openflow_skb (12 + 64) allocOk with
  | none => (none, -ENOMEM)
  | some _ => (some (etype, code), 0)

/-- Observable outcome of dp_send_hello. -/
structure HelloOut where
  errorsSent : List (Nat × Nat)
  helloSent : Bool
  ret : Int
deriving DecidableEq, Repr

/-- dp_send_hello (datapath.c:934): a request with version below
OFP_VERSION gets a HELLO_FAILED/INCOMPATIBLE error (whose own send
status is ignored) and the call fails with -EINVAL; otherwise a HELLO
reply is allocated and sent to the sender. -/
def dp_send_hello (version : Nat) (errAllocOk helloAllocOk : Bool) : HelloOut :=
  if version < OFP_VERSION then
    let e := dp_send_error_msg OFPET_HELLO_FAILED OFPHFC_INCOMPATIBLE errAllocOk
    { errorsSent := match e.1 with | some tc => [tc] | none => [],
      helloSent := false, ret := -EINVAL }
  else
    match alloc_openflow_skb 8 helloAllocOk with
    | none => { errorsSent := [], helloSent := false, ret := -ENOMEM }
    | some _ => { errorsSent := [], helloSent := true, ret := 0 }

/-!
## Datapath creation (gen_dp_idx, new_dp, dp_genl_add, datapath.c:269-368, 1139-1151)

The registry dps[] is modelled by its occupancy: dps i = true when slot
i holds a datapath.  The fallible construction steps of new_dp are an
explicit environment.
-/

/-- Loop body of gen_dp_idx (datapath.c:269): scan slots i, i+1, ... for
the first free one; 'fuel' bounds the scan (DP_MAX - i at the top call). -/
def gen_dp_idx_go (dps : Nat → Bool) : Nat → Nat → Int
  | _, 0 => -1
  | i, fuel + 1 => if dps i then gen_dp_idx_go dps (i + 1) fuel else (i : Int)

/-- gen_dp_idx (datapath.c:269): first free datapath index, or -1. -/
def gen_dp_idx (dps : Nat → Bool) : Int :=
  gen_dp_idx_go dps 0 DP_MAX

/-- Fallible steps of new_dp: try_module_get, kzalloc of the datapath,
dp_dev_setup (its error code when it fails), chain_create,
new_nbp for the local port (its error code when it fails), kthread_run. -/
structure NewDpEnv where
  moduleGet : Bool
  dpAlloc : Bool
  devSetup : Option Int
  chainOk : Bool
  localPort : Option Int
  kthreadOk : Bool
deriving DecidableEq, Repr

/-- Index resolution at the top of new_dp (datapath.c:294-295): -1 asks
gen_dp_idx for the lowest free index. -/
def resolve_dp_idx (dps : Nat → Bool) (dp_idx : Int) : Int :=
  if dp_idx = -1 then gen_dp_idx dps else dp_idx

/-- new_dp (datapath.c:286): returns the error code and the registry
occupancy after the call.  A dp_idx of -1 means no preferred index.
When chain_create or kthread_run fails the source jumps to the error
exits without updating 'err', which still holds dp_dev_setup's success
code, so those paths return 0 while publishing nothing. -/
def new_dp (dps : Nat → Bool) (dp_idx : Int) (env : NewDpEnv) :
    Int × (Nat → Bool) :=
  if resolve_dp_idx dps dp_idx < 0 ∨ (DP_MAX : Int) ≤ resolve_dp_idx dps dp_idx then
    (-EINVAL, dps)
  else if !env.moduleGet then (-ENODEV, dps)
  else if dps (resolve_dp_idx dps dp_idx).toNat then (-EEXIST, dps)
  else if !env.dpAlloc then (-ENOMEM, dps)
  else
    match env.devSetup with
    | some e => (e, dps)
    | none =>
      if !env.chainOk then (0, dps)
      else
        match env.localPort with
        | some e => (e, dps)
        | none =>
          if !env.kthreadOk then (0, dps)
          else (0, fun j => if j = (resolve_dp_idx dps dp_idx).toNat then true
                            else dps j)

/-- Reinterpret a 32-bit attribute value as a C int, as the assignment
int dp_idx = nla_get_u32(...) does. -/
def toInt32 (v : Nat) : Int :=
  if v % 2 ^ 32 < 2 ^ 31 then ((v % 2 ^ 32 : Nat) : Int)
  else ((v % 2 ^ 32 : Nat) : Int) - 2 ^ 32

/-- dp_genl_add (datapath.c:1139): -EINVAL when neither a DP_IDX
attribute nor a DP_NAME attribute is supplied, otherwise new_dp with
dp_idx = -1 standing for an absent DP_IDX. -/
def dp_genl_add (dps : Nat → Bool) (idAttr : Option Nat) (nameGiven : Bool)
    (env : NewDpEnv) : Int × (Nat → Bool) :=
  if (match idAttr with | some v => toInt32 v | none => -1) = -1 ∧
      nameGiven = false then
    (-EINVAL, dps)
  else new_dp dps (match idAttr with | some v => toInt32 v | none => -1) env

/-!
## Durations (jiffies_64_to_secs / jiffies_64_to_nsecs, datapath.c:1035-1050)

HZ is a kernel configuration constant, kept as a parameter 'hz'.
-/

/-- jiffies_64_to_secs (datapath.c:1036): do_div leaves the 64-bit
quotient in j and the function returns it as a u32. -/
def jiffies_64_to_secs (hz j : Nat) : Nat :=
  (j / hz) % 2 ^ 32

/-- jiffies_64_to_nsecs (datapath.c:1045): the source computes
j - jiffies_64_to_secs(j) in 64-bit arithmetic and returns it as u32. -/
def jiffies_64_to_nsecs (hz j : Nat) : Nat :=
  ((j + 2 ^ 64 - jiffies_64_to_secs hz j) % 2 ^ 64) % 2 ^ 32

/-- Duration pair written into OFPT_FLOW_REMOVED by dp_send_flow_end
(datapath.c:1073-1074) for a flow of age 'delta' ticks. -/
def flowRemovedDuration (hz delta : Nat) : Nat × Nat :=
  (jiffies_64_to_secs hz delta, jiffies_64_to_nsecs hz delta)

/-- Duration pair written into each flow stats record by
flow_stats_dump_callback (datapath.c:1477-1480): the tick delta is first
divided by HZ with do_div, then fed to both helpers. -/
def flowStatsDuration (hz delta : Nat) : Nat × Nat :=
  (jiffies_64_to_secs hz (delta / hz), jiffies_64_to_nsecs hz (delta / hz))

/-- Modelled from the spec: the (seconds, nanoseconds) pair the spec
prescribes for a duration of 'delta' ticks - whole seconds and the
sub-second remainder expressed in nanoseconds. -/
def specDuration (hz delta : Nat) : Nat × Nat :=
  (delta / hz, (delta % hz) * (1000000000 / hz))

/-!
## Flow statistics dump (flow_stats_*, datapath.c:1418-1544, 1859-1994)

A flow is reduced to its actions_len; a table to the list of its flows
that match the request (the match and out_port filters live in the
external Chain).  The record written per flow by
flow_stats_dump_callback is sizeof(struct ofp_flow_stats) +
actions_len bytes long.
-/

/-- Length of the stats record flow_stats_dump_callback writes for a flow
with the given actions_len (datapath.c:1452). -/
def flowRecLen (actionsLen : Nat) : Nat := 88 + actionsLen

/-- Result of one table->iterate call: bytes used so far, the position
cursor, whether the callback stopped the walk (buffer full), and the
record lengths emitted in order. -/
structure IterOut where
  used : Nat
  pos : Nat
  stop : Bool
  emitted : List Nat
deriving DecidableEq, Repr

/-- Modelled from the spec: Chain.iterate(table, match, out_port,
position, cb) is external to this file (table.c); per the spec it feeds
the flows matching the request to the callback starting at 'position',
stops when the callback returns nonzero leaving 'position' at the
offending flow, and advances 'position' past each flow the callback
accepted.  The callback logic itself (the buffer-full test of
flow_stats_dump_callback, datapath.c:1444-1492) is from the source:
a flow is accepted when used + flowRecLen a fits within cap. -/
def table_iterate_go (cap : Nat) : List Nat → Nat → Nat → IterOut
  | [], pos, used => { used := used, pos := pos, stop := false, emitted := [] }
  | a :: rest, pos, used =>
    if used + flowRecLen a > cap then
      { used := used, pos := pos, stop := true, emitted := [] }
    else
      { used := (table_iterate_go cap rest (pos + 1) (used + flowRecLen a)).used,
        pos := (table_iterate_go cap rest (pos + 1) (used + flowRecLen a)).pos,
        stop := (table_iterate_go cap rest (pos + 1) (used + flowRecLen a)).stop,
        emitted := flowRecLen a ::
          (table_iterate_go cap rest (pos + 1) (used + flowRecLen a)).emitted }

/-- Iterate a table's matching flows from position 'pos'. -/
def table_iterate (cap : Nat) (flows : List Nat) (pos used : Nat) : IterOut :=
  table_iterate_go cap (flows.drop pos) pos used

/-- The flow chain as the dump engine sees it: the indexed tables and the
emergency table, each the list of actions_len of its matching flows. -/
structure FlowChain where
  tables : List (List Nat)
  emerg : List Nat
deriving DecidableEq, Repr

/-- Cursor of a flow stats dump (struct flow_stats_state,
datapath.c:1418). -/
structure FlowStatsState where
  table_idx : Nat
  position : Nat
deriving DecidableEq, Repr

/-- flow_stats_init (datapath.c:1430): table_idx starts at the requested
table, or 0 for the 0xff wildcard. -/
def flow_stats_init (table_id : Nat) : FlowStatsState :=
  { table_idx := if table_id = 255 then 0 else table_id, position := 0 }

/-- Result of the while loop of flow_stats_dump. -/
structure LoopOut where
  ti : Nat
  pos : Nat
  used : Nat
  stopped : Bool
  emitted : List Nat
deriving DecidableEq, Repr

/-- While loop of flow_stats_dump (datapath.c:1516-1528) over the table
suffix starting at index 'ti' (the caller passes tables.drop ti): run
while ti < n_tables and (wildcard request or ti is the requested table);
on a buffer-full stop keep the cursor, otherwise advance to the next
table with position 0. -/
def flow_dump_loop (cap table_id : Nat) :
    List (List Nat) → Nat → Nat → Nat → LoopOut
  | [], ti, pos, used =>
    { ti := ti, pos := pos, used := used, stopped := false, emitted := [] }
  | t :: rest, ti, pos, used =>
    if table_id = 255 ∨ table_id = ti then
      if (table_iterate cap t pos used).stop then
        { ti := ti, pos := (table_iterate cap t pos used).pos,
          used := (table_iterate cap t pos used).used, stopped := true,
          emitted := (table_iterate cap t pos used).emitted }
      else
        { ti := (flow_dump_loop cap table_id rest (ti + 1) 0
            (table_iterate cap t pos used).used).ti,
          pos := (flow_dump_loop cap table_id rest (ti + 1) 0
            (table_iterate cap t pos used).used).pos,
          used := (flow_dump_loop cap table_id rest (ti + 1) 0
            (table_iterate cap t pos used).used).used,
          stopped := (flow_dump_loop cap table_id rest (ti + 1) 0
            (table_iterate cap t pos used).used).stopped,
          emitted := (table_iterate cap t pos used).emitted ++
            (flow_dump_loop cap table_id rest (ti + 1) 0
              (table_iterate cap t pos used).used).emitted }
    else
      { ti := ti, pos := pos, used := used, stopped := false, emitted := [] }

/-- Result of one flow_stats_dump call: new cursor, bytes written to the
body, return value (0 done, 1 more, -ENOMEM when nothing fit), and the
records emitted. -/
structure DumpOut where
  s : FlowStatsState
  body_len : Nat
  ret : Int
  emitted : List Nat
deriving DecidableEq, Repr

/-- flow_stats_dump (datapath.c:1494): table id 0xfe selects the
emergency table, otherwise the while loop over the indexed tables;
bytes_used restarts at 0 on each call and the return value classifies
done / more / could-not-fit-even-one. -/
def flow_stats_dump (ch : FlowChain) (table_id cap : Nat)
    (s : FlowStatsState) : DumpOut :=
  if table_id = 254 then
    { s := { s with position := (table_iterate cap ch.emerg s.position 0).pos },
      body_len := (table_iterate cap ch.emerg s.position 0).used,
      ret := if !(table_iterate cap ch.emerg s.position 0).stop then 0
             else if 0 < (table_iterate cap ch.emerg s.position 0).used then 1
             else -ENOMEM,
      emitted := (table_iterate cap ch.emerg s.position 0).emitted }
  else
    { s := { table_idx := (flow_dump_loop cap table_id
               (ch.tables.drop s.table_idx) s.table_idx s.position 0).ti,
             position := (flow_dump_loop cap table_id
               (ch.tables.drop s.table_idx) s.table_idx s.position 0).pos },
      body_len := (flow_dump_loop cap table_id
        (ch.tables.drop s.table_idx) s.table_idx s.position 0).used,
      ret := if !(flow_dump_loop cap table_id
               (ch.tables.drop s.table_idx) s.table_idx s.position 0).stopped
             then 0
             else if 0 < (flow_dump_loop cap table_id
               (ch.tables.drop s.table_idx) s.table_idx s.position 0).used
             then 1
             else -ENOMEM,
      emitted := (flow_dump_loop cap table_id
        (ch.tables.drop s.table_idx) s.table_idx s.position 0).emitted }

/-- One STATS_REPLY fragment as dp_genl_openflow_dumpit frames it. -/
structure Fragment where
  more : Bool
  body_len : Nat
  emitted : List Nat
deriving DecidableEq, Repr

/-- Flow-stats arm of dp_genl_openflow_dumpit (datapath.c:1971-1993):
when dump returns ≥ 0 a fragment is sent with OFPSF_REPLY_MORE set
exactly on a nonzero (more) return, and the dump is marked done on 0;
a negative return (-ENOMEM) aborts the dump with that error and no
fragment.  Result: (fragment sent, new cursor, error, dump finished). -/
def dumpit_flow (ch : FlowChain) (table_id cap : Nat) (s : FlowStatsState) :
    Option Fragment × FlowStatsState × Int × Bool :=
  if 0 ≤ (flow_stats_dump ch table_id cap s).ret then
    (some { more := (flow_stats_dump ch table_id cap s).ret ≠ 0,
            body_len := (flow_stats_dump ch table_id cap s).body_len,
            emitted := (flow_stats_dump ch table_id cap s).emitted },
     (flow_stats_dump ch table_id cap s).s, 0,
     (flow_stats_dump ch table_id cap s).ret = 0)
  else
    (none, (flow_stats_dump ch table_id cap s).s,
     (flow_stats_dump ch table_id cap s).ret, true)

/-- Record lengths still to be dumped from cursor position (ti, pos),
given the table suffix tables.drop ti: the flows of the current table
from pos, then - for a wildcard request - all flows of the later
tables. -/
def flatRem (table_id : Nat) : List (List Nat) → Nat → Nat → List Nat
  | [], _, _ => []
  | t :: rest, ti, pos =>
    if table_id = 255 ∨ table_id = ti then
      (t.drop pos).map flowRecLen ++ flatRem table_id rest (ti + 1) 0
    else []

/-- Record lengths remaining for the whole request at cursor 's'. -/
def remFlows (ch : FlowChain) (table_id : Nat) (s : FlowStatsState) : List Nat :=
  if table_id = 254 then (ch.emerg.drop s.position).map flowRecLen
  else flatRem table_id (ch.tables.drop s.table_idx) s.table_idx s.position

/-- Number of leading records of 'l' that fit a buffer of 'cap' bytes of
which 'used' are already taken, stopping at the first that does not. -/
def fitCount (cap : Nat) : Nat → List Nat → Nat
  | _, [] => 0
  | used, r :: rest =>
    if used + r > cap then 0 else fitCount cap (used + r) rest + 1

/-!
## Port statistics dump (port_stats_dump, datapath.c:1697-1746)
-/

/-- sizeof(struct ofp_port_stats): port_no(2) + pad(6) + 12 64-bit
counters. -/
def PORT_STATS_REC_LEN : Nat := 104

/-- Physical-port walk of port_stats_dump: from slot i while
i < DP_MAX_PORTS and n < max_ports, counting a record per occupied slot;
'fuel' is DP_MAX_PORTS - i at the top call.  Returns (final i, n). -/
def psLoop (occupied : Nat → Bool) (maxp : Nat) : Nat → Nat → Nat → Nat × Nat
  | 0, i, n => (i, n)
  | fuel + 1, i, n =>
    if n < maxp then
      if occupied i then psLoop occupied maxp fuel (i + 1) (n + 1)
      else psLoop occupied maxp fuel (i + 1) n
    else (i, n)

/-- Observable result of port_stats_dump: records written into the body,
bytes reported back, the saved start_port cursor, and the return
value. -/
structure PortDumpOut where
  records : Nat
  body_len : Nat
  start_port : Nat
  ret : Int
deriving DecidableEq, Repr

/-- port_stats_dump (datapath.c:1697).  'occupied' is the occupancy of
dp->ports for slots 0..DP_MAX_PORTS-1, 'hasLocal' whether dp->local_port
is set, 'port_no' the request's port filter and 'start_port' the cursor.
For OFPP_NONE the source walks the physical slots bounded by max_ports
and then appends the local port's record unconditionally. -/
def port_stats_dump (occupied : Nat → Bool) (hasLocal : Bool)
    (port_no start_port body_len : Nat) : PortDumpOut :=
  let maxp := body_len / PORT_STATS_REC_LEN
  if maxp = 0 then
    { records := 0, body_len := body_len, start_port := start_port,
      ret := -ENOMEM }
  else if port_no = OFPP_NONE then
    let r := psLoop occupied maxp (DP_MAX_PORTS - start_port) start_port 0
    if hasLocal then
      { records := r.2 + 1, body_len := (r.2 + 1) * PORT_STATS_REC_LEN,
        start_port := OFPP_LOCAL + 1,
        ret := if maxp ≤ r.2 + 1 then 1 else 0 }
    else
      { records := r.2, body_len := r.2 * PORT_STATS_REC_LEN,
        start_port := r.1,
        ret := if maxp ≤ r.2 then 1 else 0 }
  else
    let found : Bool :=
      if port_no < DP_MAX_PORTS then occupied port_no
      else if port_no = OFPP_LOCAL then hasLocal
      else false
    let n := if found then 1 else 0
    { records := n, body_len := n * PORT_STATS_REC_LEN,
      start_port := start_port, ret := if maxp ≤ n then 1 else 0 }

/-!
## Theorems
-/

/-- Claim C8: the (duration_sec, duration_nsec) pair reported for a flow
duration of t ticks should be t divided into whole seconds with the
sub-second remainder in nanoseconds.  The code disagrees: at HZ = 100
and t = 150 ticks (1.5 s) FLOW_REMOVED carries (1, 149) instead of
(1, 500000000) - jiffies_64_to_nsecs computes j - j/HZ, not nanoseconds -
and the flow-stats record carries (0, 1) because
flow_stats_dump_callback divides the tick count by HZ a second time. -/
theorem C8_duration_divergence :
    flowRemovedDuration 100 150 = (1, 149) ∧
    flowStatsDuration 100 150 = (0, 1) ∧
    specDuration 100 150 = (1, 500000000) ∧
    flowRemovedDuration 100 150 ≠ specDuration 100 150 ∧
    flowStatsDuration 100 150 ≠ specDuration 100 150 := by
  refine ⟨by decide, by decide, by decide, by decide, by decide⟩

/-- Claim C10: port_stats_dump should write at most
body_len / sizeof(ofp_port_stats) records.  It does not: with a
one-record buffer (body_len = 104), ports 1 and 2 occupied and the local
port present, the physical-port walk fills the buffer with one record
and the unguarded local-port append then writes a second record past the
end of the supplied body. -/
theorem C10_port_stats_dump_overflow :
    port_stats_dump (fun i => i == 1 || i == 2) true OFPP_NONE 1 104 =
      { records := 2, body_len := 208, start_port := 65535, ret := 1 } ∧
    104 / PORT_STATS_REC_LEN = 1 ∧ ¬(2 ≤ 104 / PORT_STATS_REC_LEN) := by
  refine ⟨by decide, by decide, by decide⟩

/-- Claim C9, counterexample: an OpenFlow message whose total length
exceeds 65535 bytes is indeed rejected at construction (null result, so
nothing is sent), but the failure is reported as -ENOMEM by every
caller, not as -E2BIG as the claim states: here dp_output_control on an
unbuffered 65530-byte frame. -/
theorem C9_counterexample :
    alloc_openflow_skb 65528 true = none ∧
    dp_output_control 65530 0 0 4294967295 none true = (none, -ENOMEM) ∧
    (-ENOMEM : Int) ≠ -E2BIG := by
  refine ⟨by decide, by decide, by decide⟩

/-- Claim C9 (amended): a message whose total length (payload plus the
8-byte header, as alloc_openflow_skb counts it) exceeds 65535 bytes is
rejected at construction with a null result regardless of memory, no
message is sent, and the caller reports the rejection as -ENOMEM. -/
theorem C9_oversize_rejected (olen : Nat) (memOk : Bool)
    (skbLen maxLen reason bufferId : Nat) (ingress : Option Nat) :
    (65535 < olen + 8 → alloc_openflow_skb olen memOk = none) ∧
    (65535 < OFP_PACKET_IN_DATA_OFFSET +
        (if bufferId ≠ 4294967295 then min skbLen maxLen else skbLen) + 8 →
      dp_output_control skbLen maxLen reason bufferId ingress memOk =
        (none, -ENOMEM)) := by
  constructor
  · intro h
    unfold alloc_openflow_skb
    rw [if_pos h]
  · intro h
    have ha : alloc_openflow_skb (OFP_PACKET_IN_DATA_OFFSET +
        (if bufferId ≠ 4294967295 then min skbLen maxLen else skbLen))
          memOk = none := by
      unfold alloc_openflow_skb
      rw [if_pos (by omega)]
    unfold dp_output_control
    simp only [ha, Option.isNone_none, if_true]

/-- Claim C9, witness for the amended theorem. -/
theorem C9_oversize_rejected_witness :
    alloc_openflow_skb 70000 true = none ∧
    dp_output_control 70000 66000 1 7 (some 3) true = (none, -ENOMEM) := by
  refine ⟨(C9_oversize_rejected 70000 true 70000 66000 1 7 (some 3)).1 (by decide),
          (C9_oversize_rejected 70000 true 70000 66000 1 7 (some 3)).2 (by decide)⟩

/-- Claim C6: the computed packet length is the frame length minus
ETH_HLEN, minus VLAN_HLEN more when the frame is 802.1Q-tagged; a
non-GSO frame whose packet length exceeds the egress MTU is dropped with
-E2BIG; an untagged frame of exactly MTU + ETH_HLEN is transmitted while
one byte more is dropped. -/
theorem C6_transmit_policy (len mtu : Nat) (tagged gso : Bool) :
    (ETH_HLEN + (if tagged then VLAN_HLEN else 0) ≤ len → len < 2 ^ 32 →
      packet_length len tagged =
        len - ETH_HLEN - (if tagged then VLAN_HLEN else 0)) ∧
    (gso = false → mtu < packet_length len tagged →
      dp_xmit_skb len mtu tagged gso = { dropped := true, ret := -E2BIG }) ∧
    (len = mtu + ETH_HLEN → tagged = false → mtu + ETH_HLEN < 2 ^ 32 →
      (dp_xmit_skb len mtu tagged gso).dropped = false) ∧
    (len = mtu + ETH_HLEN + 1 → tagged = false → gso = false →
      mtu + ETH_HLEN + 1 < 2 ^ 32 →
      dp_xmit_skb len mtu tagged gso = { dropped := true, ret := -E2BIG }) := by
  refine ⟨?_, ?_, ?_, ?_⟩
  · intro hlo hhi
    unfold packet_length ETH_HLEN VLAN_HLEN
    unfold ETH_HLEN VLAN_HLEN at hlo
    cases tagged
    · simp only [Bool.false_eq_true, if_false] at *
      omega
    · simp only [if_true] at *
      omega
  · intro hg hlt
    unfold dp_xmit_skb
    rw [hg]
    simp only [Bool.not_false, Bool.and_true, if_pos (decide_eq_true hlt)]
  · intro hl ht hlt
    subst hl; subst ht
    have hp : packet_length (mtu + ETH_HLEN) false = mtu := by
      unfold packet_length ETH_HLEN VLAN_HLEN
      unfold ETH_HLEN at hlt
      simp only [Bool.false_eq_true, if_false]
      omega
    unfold dp_xmit_skb
    rw [hp]
    simp
  · intro hl ht hg hlt
    subst hl; subst ht; subst hg
    have hp : packet_length (mtu + ETH_HLEN + 1) false = mtu + 1 := by
      unfold packet_length ETH_HLEN VLAN_HLEN
      unfold ETH_HLEN at hlt
      simp only [Bool.false_eq_true, if_false]
      omega
    unfold dp_xmit_skb
    rw [hp]
    simp

/-- Claim C6, witness: a 1514-byte untagged frame on MTU 1500 is
transmitted, 1515 bytes are dropped with -E2BIG. -/
theorem C6_transmit_policy_witness :
    packet_length 1514 false = 1500 ∧
    (dp_xmit_skb 1514 1500 false false).dropped = false ∧
    dp_xmit_skb 1515 1500 false false = { dropped := true, ret := -E2BIG } ∧
    dp_xmit_skb 2000 1500 false false = { dropped := true, ret := -E2BIG } := by
  refine ⟨(C6_transmit_policy 1514 1500 false false).1 (by decide) (by decide),
          (C6_transmit_policy 1514 1500 false false).2.2.1 rfl rfl (by decide),
          (C6_transmit_policy 1515 1500 false false).2.2.2 rfl rfl rfl (by decide),
          (C6_transmit_policy 2000 1500 false false).2.1 rfl (by decide)⟩

/-- Claim C5: a HELLO whose version is below OFP_VERSION elicits exactly
one HELLO_FAILED/INCOMPATIBLE error, no HELLO reply, and a failing
return code; a HELLO with version at least OFP_VERSION gets a HELLO
reply. -/
theorem C5_hello_handshake (version : Nat) (errAllocOk helloAllocOk : Bool) :
    (version < OFP_VERSION → errAllocOk = true →
      dp_send_hello version errAllocOk helloAllocOk =
        { errorsSent := [(OFPET_HELLO_FAILED, OFPHFC_INCOMPATIBLE)],
          helloSent := false, ret := -EINVAL }) ∧
    (version < OFP_VERSION →
      (dp_send_hello version errAllocOk helloAllocOk).helloSent = false ∧
      (dp_send_hello version errAllocOk helloAllocOk).ret = -EINVAL) ∧
    (OFP_VERSION ≤ version → helloAllocOk = true →
      (dp_send_hello version errAllocOk helloAllocOk).helloSent = true) := by
  refine ⟨?_, ?_, ?_⟩
  · intro hv he
    subst he
    unfold dp_send_hello dp_send_error_msg alloc_openflow_skb
    rw [if_pos hv]
    simp
  · intro hv
    unfold dp_send_hello
    rw [if_pos hv]
    exact ⟨rfl, rfl⟩
  · intro hv hh
    subst hh
    unfold dp_send_hello alloc_openflow_skb
    rw [if_neg (by omega)]
    simp

/-- Claim C5, witness: version 0 gets the single error and a failing
return, version 1 gets the HELLO reply. -/
theorem C5_hello_handshake_witness :
    dp_send_hello 0 true true =
      { errorsSent := [(OFPET_HELLO_FAILED, OFPHFC_INCOMPATIBLE)],
        helloSent := false, ret := -EINVAL } ∧
    (dp_send_hello 0 false true).helloSent = false ∧
    (dp_send_hello 1 true true).helloSent = true := by
  refine ⟨(C5_hello_handshake 0 true true).1 (by decide) rfl,
          ((C5_hello_handshake 0 false true).2.1 (by decide)).1,
          (C5_hello_handshake 1 true true).2.2 (by decide) rfl⟩

/-- Claim C2: whenever dp_output_control actually sends a PACKET_IN, its
payload is min(frame_len, max_len) when a buffer id other than
0xffffffff was obtained and the full frame otherwise, total_len is the
original frame length (stored through htons, hence exact for frames
under 2^16 bytes), and in_port is the ingress port number or OFPP_LOCAL
when the frame carries no ingress bridge port. -/
theorem C2_packet_in_fields (skbLen maxLen reason bufferId : Nat)
    (ingress : Option Nat) (memOk : Bool) (msg : PacketInMsg) (r : Int)
    (h : dp_output_control skbLen maxLen reason bufferId ingress memOk =
      (some msg, r)) :
    (bufferId ≠ 4294967295 → msg.payload_len = min skbLen maxLen) ∧
    (bufferId = 4294967295 → msg.payload_len = skbLen) ∧
    (skbLen < 2 ^ 16 → msg.total_len = skbLen) ∧
    msg.in_port = ingress.getD OFPP_LOCAL ∧
    msg.buffer_id = bufferId := by
  unfold dp_output_control at h
  by_cases hb : bufferId = 4294967295
  · simp only [hb, ne_eq, not_true_eq_false, if_false] at h
    split at h
    · exact absurd h (by simp)
    · simp only [Prod.mk.injEq, Option.some.injEq] at h
      obtain ⟨hm, _⟩ := h
      subst hm
      refine ⟨fun hb2 => absurd hb hb2, fun _ => rfl, ?_, rfl, hb.symm⟩
      intro hlen
      simpa using Nat.mod_eq_of_lt hlen
  · simp only [hb, ne_eq, not_false_eq_true, if_true] at h
    split at h
    · exact absurd h (by simp)
    · simp only [Prod.mk.injEq, Option.some.injEq] at h
      obtain ⟨hm, _⟩ := h
      subst hm
      refine ⟨fun _ => rfl, fun hb2 => absurd hb2 hb, ?_, rfl, rfl⟩
      intro hlen
      simpa using Nat.mod_eq_of_lt hlen

/-- Claim C2, witness: a 200-byte frame stashed under buffer id 5 with
max_len 128 yields payload 128 and total_len 200; unstashed, the full
200 bytes with in_port OFPP_LOCAL. -/
theorem C2_packet_in_fields_witness :
    ((200 : Nat) ≠ 4294967295 →
      (PacketInMsg.mk 5 200 1 0 128).payload_len = min 200 128) ∧
    (PacketInMsg.mk 4294967295 200 65534 0 200).payload_len = 200 ∧
    (PacketInMsg.mk 5 200 1 0 128).total_len = 200 ∧
    (PacketInMsg.mk 4294967295 200 65534 0 200).in_port = OFPP_LOCAL := by
  have h1 := C2_packet_in_fields 200 128 0 5 (some 1) true
    ⟨5, 200, 1, 0, 128⟩ 0 (by decide)
  have h2 := C2_packet_in_fields 200 128 0 4294967295 none true
    ⟨4294967295, 200, 65534, 0, 200⟩ 0 (by decide)
  exact ⟨fun _ => h1.1 (by decide), h2.2.1 rfl, h1.2.2.1 (by decide), h2.2.2.2.1⟩

/-- Claim C3: an output to a numeric port in [0, DP_MAX_PORTS) is dropped
with -EINVAL when the slot's device is the frame's ingress device,
dropped silently with result 0 when the port has NO_FWD set and the
action does not carry ignore_no_fwd, dropped with -ENOENT when the slot
is empty, and any out_port that is neither numeric nor one of the
virtual ports is dropped with -ENOENT. -/
theorem C3_output_port_errors (ports : Nat → Option BridgePort)
    (skbDev : Option Nat) (out_port : Nat) (ign : Bool) (p : BridgePort) :
    (out_port < DP_MAX_PORTS → ports out_port = some p →
      skbDev = some p.dev →
      dp_output_port ports skbDev out_port ign = .drop (-EINVAL)) ∧
    (out_port < DP_MAX_PORTS → ports out_port = some p →
      skbDev ≠ some p.dev → p.config &&& OFPPC_NO_FWD ≠ 0 → ign = false →
      dp_output_port ports skbDev out_port ign = .drop 0) ∧
    (out_port < DP_MAX_PORTS → ports out_port = none →
      dp_output_port ports skbDev out_port ign = .drop (-ENOENT)) ∧
    (DP_MAX_PORTS ≤ out_port → out_port ≠ OFPP_IN_PORT →
      out_port ≠ OFPP_TABLE → out_port ≠ OFPP_FLOOD → out_port ≠ OFPP_ALL →
      out_port ≠ OFPP_CONTROLLER → out_port ≠ OFPP_LOCAL →
      dp_output_port ports skbDev out_port ign = .drop (-ENOENT)) := by
  unfold DP_MAX_PORTS OFPP_IN_PORT OFPP_TABLE OFPP_FLOOD OFPP_ALL
    OFPP_CONTROLLER OFPP_LOCAL
  refine ⟨?_, ?_, ?_, ?_⟩
  · intro hlt hslot hdev
    unfold dp_output_port
    unfold DP_MAX_PORTS OFPP_IN_PORT OFPP_TABLE OFPP_FLOOD OFPP_ALL
      OFPP_CONTROLLER OFPP_LOCAL
    rw [if_neg (by omega), if_neg (by omega), if_neg (by omega),
      if_neg (by omega), if_neg (by omega), if_neg (by omega), if_pos hlt,
      hslot]
    simp only [if_pos hdev]
  · intro hlt hslot hdev hfwd hign
    subst hign
    unfold dp_output_port
    unfold DP_MAX_PORTS OFPP_IN_PORT OFPP_TABLE OFPP_FLOOD OFPP_ALL
      OFPP_CONTROLLER OFPP_LOCAL
    rw [if_neg (by omega), if_neg (by omega), if_neg (by omega),
      if_neg (by omega), if_neg (by omega), if_neg (by omega), if_pos hlt,
      hslot]
    simp only [if_neg hdev, Bool.not_false, Bool.and_true]
    rw [if_pos (by simpa using hfwd)]
  · intro hlt hslot
    unfold dp_output_port
    unfold DP_MAX_PORTS OFPP_IN_PORT OFPP_TABLE OFPP_FLOOD OFPP_ALL
      OFPP_CONTROLLER OFPP_LOCAL
    rw [if_neg (by omega), if_neg (by omega), if_neg (by omega),
      if_neg (by omega), if_neg (by omega), if_neg (by omega), if_pos hlt,
      hslot]
  · intro hge h1 h2 h3 h4 h5 h6
    unfold dp_output_port
    unfold DP_MAX_PORTS OFPP_IN_PORT OFPP_TABLE OFPP_FLOOD OFPP_ALL
      OFPP_CONTROLLER OFPP_LOCAL
    rw [if_neg h1, if_neg h2, if_neg h3, if_neg h4, if_neg h5, if_neg h6,
      if_neg (by omega)]

/-- Claim C3, witness: against a table holding only port 2 with NO_FWD
set on device 20, outputs to port 2 from device 20 (-EINVAL), to port 2
from device 10 (silent drop, 0), to empty slot 3 (-ENOENT), and to the
unrecognized value OFPP_NORMAL (-ENOENT). -/
theorem C3_output_port_errors_witness :
    dp_output_port (fun i => if i = 2 then some ⟨2, 20, OFPPC_NO_FWD⟩ else none)
      (some 20) 2 false = .drop (-EINVAL) ∧
    dp_output_port (fun i => if i = 2 then some ⟨2, 20, OFPPC_NO_FWD⟩ else none)
      (some 10) 2 false = .drop 0 ∧
    dp_output_port (fun i => if i = 2 then some ⟨2, 20, OFPPC_NO_FWD⟩ else none)
      (some 10) 3 false = .drop (-ENOENT) ∧
    dp_output_port (fun i => if i = 2 then some ⟨2, 20, OFPPC_NO_FWD⟩ else none)
      (some 10) OFPP_NORMAL false = .drop (-ENOENT) := by
  have t := fun d op =>
    C3_output_port_errors
      (fun i => if i = 2 then some ⟨2, 20, OFPPC_NO_FWD⟩ else none)
      (some d) op false ⟨2, 20, OFPPC_NO_FWD⟩
  exact ⟨(t 20 2).1 (by decide) (by decide) rfl,
         (t 10 2).2.1 (by decide) (by decide) (by decide) (by decide) rfl,
         (t 10 3).2.2.1 (by decide) (by decide),
         (t 10 OFPP_NORMAL).2.2.2 (by decide) (by decide) (by decide)
           (by decide) (by decide) (by decide) (by decide)⟩

/-- The skip condition of output_all's loop is the negation of
eligibility. -/
theorem output_all_skip_cond (skbDev disable : Nat) (p : BridgePort) :
    (p.dev == skbDev || p.config &&& disable != 0) =
      !(floodEligible skbDev disable p) := by
  unfold floodEligible
  cases h1 : (p.dev == skbDev) <;> cases h2 : (p.config &&& disable == 0) <;>
    simp [bne, h1, h2]

/-- With every clone allocation succeeding, output_all's loop produces
the chainLog of the pending list. -/
theorem output_all_go_ok (skbDev disable : Nat) :
    ∀ (ps : List BridgePort) (prev : Option Nat) (n : Nat),
      output_all_go skbDev disable (fun _ => true) ps prev n =
        chainLog (prev.toList ++
          (eligList ps skbDev disable).map BridgePort.port_no) n := by
  intro ps
  induction ps with
  | nil =>
    intro prev n
    cases prev <;> rfl
  | cons p ps ih =>
    intro prev n
    cases prev with
    | none =>
      unfold output_all_go
      rw [output_all_skip_cond]
      cases he : floodEligible skbDev disable p
      · have hfil : eligList (p :: ps) skbDev disable =
            eligList ps skbDev disable := by
          simp [eligList, List.filter_cons, he]
        simp only [Bool.not_false, if_true]
        rw [ih none n, hfil]
      · have hfil : eligList (p :: ps) skbDev disable =
            p :: eligList ps skbDev disable := by
          simp [eligList, List.filter_cons, he]
        simp only [Bool.not_true, Bool.false_eq_true, if_false]
        rw [hfil, ih (some p.port_no) n]
        rfl
    | some pn =>
      unfold output_all_go
      rw [output_all_skip_cond]
      cases he : floodEligible skbDev disable p
      · have hfil : eligList (p :: ps) skbDev disable =
            eligList ps skbDev disable := by
          simp [eligList, List.filter_cons, he]
        simp only [Bool.not_false, if_true]
        rw [ih (some pn) n, hfil]
      · have hfil : eligList (p :: ps) skbDev disable =
            p :: eligList ps skbDev disable := by
          simp [eligList, List.filter_cons, he]
        simp only [Bool.not_true, Bool.false_eq_true, if_false]
        rw [if_pos trivial, hfil, ih (some p.port_no) (n + 1)]
        simp only [Option.toList_some, List.singleton_append, List.map_cons,
          chainLog, FloodLog.mk.injEq]
        refine ⟨by trivial, by simp only [List.length_cons]; omega, ?_,
          by trivial, by trivial⟩
        rw [List.getLast?_cons_cons]

/-- When the clone oracle fails at attempt j and the walk still has
enough eligible ports ahead to reach that attempt, output_all's loop
frees the original, sends nothing further, and returns -ENOMEM with j
clones allocated. -/
theorem output_all_go_clone_fail (skbDev disable j : Nat) :
    ∀ (ps : List BridgePort) (prev : Option Nat) (n : Nat),
      n ≤ j →
      (if prev.isSome then j - n + 1 else j - n + 2) ≤
        (eligList ps skbDev disable).length →
      ((output_all_go skbDev disable (fun i => decide (i < j)) ps prev n).ret,
       (output_all_go skbDev disable (fun i => decide (i < j)) ps prev n).origFreed,
       (output_all_go skbDev disable (fun i => decide (i < j)) ps prev n).origSentOn,
       (output_all_go skbDev disable (fun i => decide (i < j)) ps prev n).clones) =
        (-ENOMEM, true, none, j) := by
  intro ps
  induction ps with
  | nil =>
    intro prev n hn hcnt
    exfalso
    cases prev <;> simp [eligList] at hcnt <;> try omega
  | cons p ps ih =>
    intro prev n hn hcnt
    cases prev with
    | none =>
      unfold output_all_go
      rw [output_all_skip_cond]
      cases he : floodEligible skbDev disable p
      · have hfil : eligList (p :: ps) skbDev disable =
            eligList ps skbDev disable := by
          simp [eligList, List.filter_cons, he]
        rw [hfil] at hcnt
        simp only [Bool.not_false, if_true]
        exact ih none n hn hcnt
      · have hfil : eligList (p :: ps) skbDev disable =
            p :: eligList ps skbDev disable := by
          simp [eligList, List.filter_cons, he]
        rw [hfil] at hcnt
        simp only [Bool.not_true, Bool.false_eq_true, if_false]
        refine ih (some p.port_no) n hn ?_
        simp only [Option.isSome_some, if_true]
        simp only [Option.isSome_none, Bool.false_eq_true, if_false,
          List.length_cons] at hcnt
        omega
    | some pn =>
      unfold output_all_go
      rw [output_all_skip_cond]
      cases he : floodEligible skbDev disable p
      · have hfil : eligList (p :: ps) skbDev disable =
            eligList ps skbDev disable := by
          simp [eligList, List.filter_cons, he]
        rw [hfil] at hcnt
        simp only [Bool.not_false, if_true]
        exact ih (some pn) n hn hcnt
      · have hfil : eligList (p :: ps) skbDev disable =
            p :: eligList ps skbDev disable := by
          simp [eligList, List.filter_cons, he]
        rw [hfil] at hcnt
        simp only [Bool.not_true, Bool.false_eq_true, if_false]
        by_cases hlt : n < j
        · rw [if_pos (decide_eq_true hlt)]
          exact ih (some p.port_no) (n + 1) (by omega) (by
            simp only [Option.isSome_some, if_true] at hcnt ⊢
            simp only [List.length_cons] at hcnt
            omega)
        · rw [if_neg (by simp [decide_eq_false hlt])]
          have hnj : n = j := by omega
          simp [hnj]

/-- The scan of gen_dp_idx either reports every slot in [i, i + fuel)
occupied, or returns the smallest free slot in that window. -/
theorem gen_dp_idx_go_spec (dps : Nat → Bool) :
    ∀ fuel i,
      (gen_dp_idx_go dps i fuel = -1 ∧
        ∀ j, i ≤ j → j < i + fuel → dps j = true) ∨
      (∃ k : Nat, gen_dp_idx_go dps i fuel = (k : Int) ∧ i ≤ k ∧
        k < i + fuel ∧ dps k = false ∧ ∀ j, i ≤ j → j < k → dps j = true) := by
  intro fuel
  induction fuel with
  | zero =>
    intro i
    exact Or.inl ⟨rfl, fun j h1 h2 => absurd h2 (by omega)⟩
  | succ n ih =>
    intro i
    unfold gen_dp_idx_go
    cases hdb : dps i with
    | true =>
      simp only [hdb, if_true]
      rcases ih (i + 1) with ⟨h1, h2⟩ | ⟨k, hk, hik, hkf, hkfree, hmin⟩
      · refine Or.inl ⟨h1, fun j hj hjf => ?_⟩
        rcases Nat.eq_or_lt_of_le hj with he | hlt
        · exact he ▸ hdb
        · exact h2 j hlt (by omega)
      · refine Or.inr ⟨k, hk, by omega, by omega, hkfree, fun j hj hjk => ?_⟩
        rcases Nat.eq_or_lt_of_le hj with he | hlt
        · exact he ▸ hdb
        · exact hmin j hlt hjk
    | false =>
      simp only [hdb, Bool.false_eq_true, if_false]
      exact Or.inr ⟨i, rfl, Nat.le_refl i, by omega, hdb,
        fun j h1 h2 => absurd h2 (by omega)⟩

/-- Every exit of new_dp either leaves the registry untouched or reports
success. -/
theorem new_dp_registry_unchanged (dps : Nat → Bool) (pref : Int)
    (env : NewDpEnv) :
    (new_dp dps pref env).2 = dps ∨ (new_dp dps pref env).1 = 0 := by
  unfold new_dp
  split
  · exact Or.inl rfl
  split
  · exact Or.inl rfl
  split
  · exact Or.inl rfl
  split
  · exact Or.inl rfl
  split
  · exact Or.inl rfl
  split
  · exact Or.inr rfl
  split
  · exact Or.inl rfl
  split
  · exact Or.inr rfl
  exact Or.inr rfl

/-- Claim C7: with every construction step succeeding, creation with no
preferred id publishes the smallest free index and returns success;
a requested id that is occupied fails with -EEXIST, one outside
[0, DP_MAX) fails with -EINVAL; ADD_DP with neither id nor name fails
with -EINVAL; and no failing call publishes an entry. -/
theorem C7_datapath_creation (dps : Nat → Bool) (pref : Int) (env : NewDpEnv) :
    (env = ⟨true, true, none, true, none, true⟩ →
      (∃ i, i < DP_MAX ∧ dps i = false) →
      ∃ k : Nat, k < DP_MAX ∧ dps k = false ∧ (∀ j, j < k → dps j = true) ∧
        new_dp dps (-1) env = (0, fun j => if j = k then true else dps j)) ∧
    (0 ≤ pref → pref < (DP_MAX : Int) → dps pref.toNat = true →
      env.moduleGet = true → new_dp dps pref env = (-EEXIST, dps)) ∧
    (pref ≠ -1 → (pref < 0 ∨ (DP_MAX : Int) ≤ pref) →
      new_dp dps pref env = (-EINVAL, dps)) ∧
    (dp_genl_add dps none false env = (-EINVAL, dps)) ∧
    ((new_dp dps pref env).1 < 0 → (new_dp dps pref env).2 = dps) := by
  refine ⟨?_, ?_, ?_, ?_, ?_⟩
  · rintro henv ⟨i, hi, hfree⟩
    subst henv
    rcases gen_dp_idx_go_spec dps DP_MAX 0 with ⟨_, hall⟩ |
      ⟨k, hk, _, hklt, hkfree, hmin⟩
    · exact absurd (hall i (Nat.zero_le i) (by omega)) (by simp [hfree])
    · have hkn : ((k : Int)).toNat = k := by omega
      have hr : resolve_dp_idx dps (-1) = (k : Int) := by
        unfold resolve_dp_idx gen_dp_idx
        rw [if_pos rfl]
        exact hk
      refine ⟨k, by omega, hkfree, fun j hj => hmin j (Nat.zero_le j) hj, ?_⟩
      unfold new_dp
      rw [hr]
      rw [if_neg (by simp only [DP_MAX] at hklt ⊢; omega)]
      rw [hkn]
      simp [hkfree]
  · intro h0 h256 hocc hmod
    have hr : resolve_dp_idx dps pref = pref := by
      unfold resolve_dp_idx
      rw [if_neg (by omega)]
    unfold new_dp
    rw [hr]
    rw [if_neg (by omega)]
    simp only [hmod, Bool.not_true, Bool.false_eq_true, if_false]
    rw [if_pos hocc]
  · intro h1 h2
    have hr : resolve_dp_idx dps pref = pref := by
      unfold resolve_dp_idx
      rw [if_neg h1]
    unfold new_dp
    rw [hr]
    rw [if_pos h2]
  · unfold dp_genl_add
    exact if_pos ⟨rfl, rfl⟩
  · intro hneg
    rcases new_dp_registry_unchanged dps pref env with h | h
    · exact h
    · rw [h] at hneg
      exact absurd hneg (by omega)

/-- Claim C7, witness: registry with only slot 0 occupied.  Creation with
no preferred id succeeds at slot 1; requesting the occupied id 0 fails
with -EEXIST; requesting 300 fails with -EINVAL and leaves the registry
unchanged; ADD_DP without id or name fails with -EINVAL. -/
theorem C7_datapath_creation_witness :
    (∃ k : Nat, k < DP_MAX ∧ (fun j : Nat => decide (j = 0)) k = false ∧
      (∀ j, j < k → (fun j : Nat => decide (j = 0)) j = true) ∧
      new_dp (fun j => decide (j = 0)) (-1) ⟨true, true, none, true, none, true⟩ =
        (0, fun j => if j = k then true else decide (j = 0))) ∧
    (new_dp (fun j => decide (j = 0)) 0
      ⟨true, true, none, true, none, true⟩).1 = -EEXIST ∧
    (new_dp (fun j => decide (j = 0)) 300
      ⟨true, true, none, true, none, true⟩).1 = -EINVAL ∧
    (dp_genl_add (fun j => decide (j = 0)) none false
      ⟨true, true, none, true, none, true⟩).1 = -EINVAL ∧
    (new_dp (fun j => decide (j = 0)) 300
      ⟨true, true, none, true, none, true⟩).2 = fun j => decide (j = 0) := by
  refine ⟨(C7_datapath_creation (fun j => decide (j = 0)) (-1)
      ⟨true, true, none, true, none, true⟩).1 rfl ⟨1, by decide, by decide⟩,
    ?_, ?_, ?_, ?_⟩
  · exact congrArg Prod.fst
      ((C7_datapath_creation (fun j => decide (j = 0)) 0
        ⟨true, true, none, true, none, true⟩).2.1
        (by decide) (by decide) (by decide) rfl)
  · exact congrArg Prod.fst
      ((C7_datapath_creation (fun j => decide (j = 0)) 300
        ⟨true, true, none, true, none, true⟩).2.2.1 (by decide) (by decide))
  · exact congrArg Prod.fst
      ((C7_datapath_creation (fun j => decide (j = 0)) 300
        ⟨true, true, none, true, none, true⟩).2.2.2.1)
  · exact (C7_datapath_creation (fun j => decide (j = 0)) 300
      ⟨true, true, none, true, none, true⟩).2.2.2.2 (by decide)

/-- fitCount never exceeds the list length. -/
theorem fitCount_le_length (cap : Nat) :
    ∀ (l : List Nat) (used : Nat), fitCount cap used l ≤ l.length := by
  intro l
  induction l with
  | nil => intro used; simp [fitCount]
  | cons r rest ih =>
    intro used
    unfold fitCount
    split
    · simp
    · have := ih (used + r)
      simp only [List.length_cons]
      omega

/-- fitCount over a concatenation: all of A followed by what fits of B,
or the cut inside A. -/
theorem fitCount_append (cap : Nat) :
    ∀ (A B : List Nat) (used : Nat),
      fitCount cap used (A ++ B) =
        if fitCount cap used A = A.length
        then A.length + fitCount cap (used + A.sum) B
        else fitCount cap used A := by
  intro A
  induction A with
  | nil =>
    intro B used
    simp [fitCount]
  | cons a A ih =>
    intro B used
    by_cases hgt : used + a > cap
    · simp only [List.cons_append]
      simp only [fitCount]
      rw [if_pos hgt, if_pos hgt]
      rw [if_neg (by simp only [List.length_cons]; omega)]
    · simp only [List.cons_append]
      simp only [fitCount]
      rw [if_neg hgt, if_neg hgt, ih B (used + a)]
      by_cases hall : fitCount cap (used + a) A = A.length
      · rw [if_pos hall, if_pos (by simp only [List.length_cons]; omega)]
        simp only [List.sum_cons, List.length_cons, ← Nat.add_assoc]
        omega
      · rw [if_neg hall, if_neg (by simp only [List.length_cons]; omega)]

/-- table_iterate_go emits exactly the longest admissible head run of the
records, advances the cursor past it, accumulates its bytes, and stops
iff some record did not fit. -/
theorem table_iterate_go_spec (cap : Nat) :
    ∀ (l : List Nat) (pos used : Nat),
      (table_iterate_go cap l pos used).emitted =
        (l.map flowRecLen).take (fitCount cap used (l.map flowRecLen)) ∧
      (table_iterate_go cap l pos used).used =
        used + ((l.map flowRecLen).take
          (fitCount cap used (l.map flowRecLen))).sum ∧
      (table_iterate_go cap l pos used).pos =
        pos + fitCount cap used (l.map flowRecLen) ∧
      ((table_iterate_go cap l pos used).stop = false ↔
        fitCount cap used (l.map flowRecLen) = l.length) := by
  intro l
  induction l with
  | nil =>
    intro pos used
    simp [table_iterate_go, fitCount]
  | cons a rest ih =>
    intro pos used
    simp only [List.map_cons]
    unfold table_iterate_go fitCount
    by_cases hgt : used + flowRecLen a > cap
    · rw [if_pos hgt, if_pos hgt]
      refine ⟨rfl, by simp, by simp, ?_⟩
      simp only [List.length_cons]
      constructor
      · intro h
        exact absurd h (by simp)
      · intro h
        omega
    · rw [if_neg hgt, if_neg hgt]
      obtain ⟨ihe, ihu, ihp, ihs⟩ := ih (pos + 1) (used + flowRecLen a)
      refine ⟨?_, ?_, ?_, ?_⟩
      · simp only [ihe, List.take_succ_cons]
      · simp only [ihu, List.take_succ_cons, List.sum_cons]
        omega
      · simp only [ihp]
        omega
      · simp only [List.length_cons]
        rw [ihs]
        omega

/-- Every record length in a remainder list is at least
sizeof(struct ofp_flow_stats). -/
theorem flatRem_ge (table_id : Nat) :
    ∀ (ts : List (List Nat)) (ti pos x : Nat),
      x ∈ flatRem table_id ts ti pos → 88 ≤ x := by
  intro ts
  induction ts with
  | nil =>
    intro ti pos x hx
    simp [flatRem] at hx
  | cons t rest ih =>
    intro ti pos x hx
    unfold flatRem at hx
    split at hx
    · rcases List.mem_append.mp hx with h | h
      · obtain ⟨a, _, rfl⟩ := List.mem_map.mp h
        unfold flowRecLen
        omega
      · exact ih (ti + 1) 0 x h
    · simp at hx

/-- A nonempty admissible head run of records of at least 88 bytes each
has positive total size. -/
theorem take_sum_pos (R : List Nat) (m : Nat) (hm : 0 < m)
    (hmlen : m ≤ R.length) (hall : ∀ x ∈ R, 88 ≤ x) :
    0 < (R.take m).sum := by
  cases R with
  | nil => simp at hmlen; omega
  | cons r rest =>
    cases m with
    | zero => omega
    | succ m =>
      rw [List.take_succ_cons, List.sum_cons]
      have := hall r (by simp)
      omega

/-- The while loop of flow_stats_dump emits the admissible head run of
the flattened remainder in ascending table order, accumulates its bytes
on top of 'used', stops exactly when a record did not fit, and leaves a
cursor from which the remainder continues with that run removed. -/
theorem flow_dump_loop_spec (cap table_id : Nat) :
    ∀ (ts : List (List Nat)) (ti pos used : Nat),
      ti ≤ (flow_dump_loop cap table_id ts ti pos used).ti ∧
      (flow_dump_loop cap table_id ts ti pos used).emitted =
        (flatRem table_id ts ti pos).take
          (fitCount cap used (flatRem table_id ts ti pos)) ∧
      (flow_dump_loop cap table_id ts ti pos used).used =
        used + ((flatRem table_id ts ti pos).take
          (fitCount cap used (flatRem table_id ts ti pos))).sum ∧
      ((flow_dump_loop cap table_id ts ti pos used).stopped = false ↔
        fitCount cap used (flatRem table_id ts ti pos) =
          (flatRem table_id ts ti pos).length) ∧
      flatRem table_id
          (ts.drop ((flow_dump_loop cap table_id ts ti pos used).ti - ti))
          (flow_dump_loop cap table_id ts ti pos used).ti
          (flow_dump_loop cap table_id ts ti pos used).pos =
        (flatRem table_id ts ti pos).drop
          (fitCount cap used (flatRem table_id ts ti pos)) := by
  intro ts
  induction ts with
  | nil =>
    intro ti pos used
    simp [flow_dump_loop, flatRem, fitCount]
  | cons t rest ih =>
    intro ti pos used
    by_cases hw : table_id = 255 ∨ table_id = ti
    · have hiter : table_iterate cap t pos used =
          table_iterate_go cap (t.drop pos) pos used := rfl
      obtain ⟨ite, itu, itp, its⟩ := table_iterate_go_spec cap (t.drop pos)
        pos used
      have hlenA : ((t.drop pos).map flowRecLen).length =
          (t.drop pos).length := List.length_map _ _
      have hflatX : ∀ q, flatRem table_id (t :: rest) ti q =
          (t.drop q).map flowRecLen ++ flatRem table_id rest (ti + 1) 0 := by
        intro q
        simp only [flatRem]
        rw [if_pos hw]
      by_cases hstop : (table_iterate cap t pos used).stop
      · have hloop : flow_dump_loop cap table_id (t :: rest) ti pos used =
            { ti := ti, pos := (table_iterate cap t pos used).pos,
              used := (table_iterate cap t pos used).used, stopped := true,
              emitted := (table_iterate cap t pos used).emitted } := by
          simp only [flow_dump_loop]
          rw [if_pos hw, if_pos hstop]
        have hne : fitCount cap used ((t.drop pos).map flowRecLen) ≠
            (t.drop pos).length := by
          intro he
          rw [hiter] at hstop
          rw [its.mpr he] at hstop
          exact absurd hstop (by simp)
        have hle : fitCount cap used ((t.drop pos).map flowRecLen) ≤
            ((t.drop pos).map flowRecLen).length :=
          fitCount_le_length cap _ used
        have hfc : fitCount cap used ((t.drop pos).map flowRecLen ++
            flatRem table_id rest (ti + 1) 0) =
            fitCount cap used ((t.drop pos).map flowRecLen) := by
          rw [fitCount_append]
          rw [if_neg (by rw [hlenA]; exact hne)]
        rw [hloop, hflatX pos, hfc]
        refine ⟨Nat.le_refl ti, ?_, ?_, ?_, ?_⟩
        · show (table_iterate cap t pos used).emitted = _
          rw [hiter, ite, List.take_append_of_le_length hle]
        · show (table_iterate cap t pos used).used = _
          rw [hiter, itu, List.take_append_of_le_length hle]
        · show (true = false) ↔ _
          constructor
          · intro h
            exact absurd h (by simp)
          · intro h
            rw [List.length_append] at h
            rw [hlenA] at h hle
            omega
        · show flatRem table_id ((t :: rest).drop (ti - ti)) ti
              (table_iterate cap t pos used).pos = _
          rw [Nat.sub_self, List.drop_zero,
            hflatX ((table_iterate cap t pos used).pos)]
          rw [List.drop_append_of_le_length hle]
          rw [hiter, itp]
          congr 1
          rw [← List.map_drop, List.drop_drop]
      · have hloop : flow_dump_loop cap table_id (t :: rest) ti pos used =
            { ti := (flow_dump_loop cap table_id rest (ti + 1) 0
                (table_iterate cap t pos used).used).ti,
              pos := (flow_dump_loop cap table_id rest (ti + 1) 0
                (table_iterate cap t pos used).used).pos,
              used := (flow_dump_loop cap table_id rest (ti + 1) 0
                (table_iterate cap t pos used).used).used,
              stopped := (flow_dump_loop cap table_id rest (ti + 1) 0
                (table_iterate cap t pos used).used).stopped,
              emitted := (table_iterate cap t pos used).emitted ++
                (flow_dump_loop cap table_id rest (ti + 1) 0
                  (table_iterate cap t pos used).used).emitted } := by
          simp only [flow_dump_loop]
          rw [if_pos hw, if_neg hstop]
        have hsf : (table_iterate cap t pos used).stop = false := by
          cases h : (table_iterate cap t pos used).stop
          · rfl
          · exact absurd h hstop
        have hdone : fitCount cap used ((t.drop pos).map flowRecLen) =
            (t.drop pos).length := by
          rw [hiter] at hsf
          exact its.mp hsf
        have hfcA : fitCount cap used ((t.drop pos).map flowRecLen) =
            ((t.drop pos).map flowRecLen).length := by
          rw [hlenA]
          exact hdone
        have hAfull : ((t.drop pos).map flowRecLen).take
            (fitCount cap used ((t.drop pos).map flowRecLen)) =
            (t.drop pos).map flowRecLen := by
          rw [hfcA, List.take_length]
        have hU : (table_iterate cap t pos used).used =
            used + ((t.drop pos).map flowRecLen).sum := by
          rw [hiter, itu, hAfull]
        obtain ⟨iht, ihe, ihu, ihs, ihd⟩ :=
          ih (ti + 1) 0 ((table_iterate cap t pos used).used)
        have hfc : fitCount cap used ((t.drop pos).map flowRecLen ++
            flatRem table_id rest (ti + 1) 0) =
            ((t.drop pos).map flowRecLen).length +
              fitCount cap (used + ((t.drop pos).map flowRecLen).sum)
                (flatRem table_id rest (ti + 1) 0) := by
          rw [fitCount_append, if_pos hfcA]
        rw [hU] at iht ihe ihu ihs ihd
        rw [hloop, hflatX pos, hfc]
        refine ⟨?_, ?_, ?_, ?_, ?_⟩
        · show ti ≤ (flow_dump_loop cap table_id rest (ti + 1) 0
              (table_iterate cap t pos used).used).ti
          rw [hU]
          omega
        · show (table_iterate cap t pos used).emitted ++
              (flow_dump_loop cap table_id rest (ti + 1) 0
                (table_iterate cap t pos used).used).emitted = _
          rw [hU, hiter, ite, hAfull, ihe, List.take_append]
        · show (flow_dump_loop cap table_id rest (ti + 1) 0
              (table_iterate cap t pos used).used).used = _
          rw [hU, ihu, List.take_append, List.sum_append]
          omega
        · show ((flow_dump_loop cap table_id rest (ti + 1) 0
              (table_iterate cap t pos used).used).stopped = false) ↔ _
          rw [hU, ihs, List.length_append]
          omega
        · show flatRem table_id ((t :: rest).drop
              ((flow_dump_loop cap table_id rest (ti + 1) 0
                (table_iterate cap t pos used).used).ti - ti))
              (flow_dump_loop cap table_id rest (ti + 1) 0
                (table_iterate cap t pos used).used).ti
              (flow_dump_loop cap table_id rest (ti + 1) 0
                (table_iterate cap t pos used).used).pos = _
          rw [hU]
          have hd : (flow_dump_loop cap table_id rest (ti + 1) 0
              (used + ((t.drop pos).map flowRecLen).sum)).ti - ti =
              ((flow_dump_loop cap table_id rest (ti + 1) 0
                (used + ((t.drop pos).map flowRecLen).sum)).ti - (ti + 1)) + 1 := by
            omega
          rw [hd, List.drop_succ_cons, ihd, List.drop_append]
    · have hloop0 : flow_dump_loop cap table_id (t :: rest) ti pos used =
          { ti := ti, pos := pos, used := used, stopped := false,
            emitted := [] } := by
        simp only [flow_dump_loop]
        rw [if_neg hw]
      have hflat0 : ∀ q, flatRem table_id (t :: rest) ti q = [] := by
        intro q
        simp only [flatRem]
        rw [if_neg hw]
      rw [hloop0, hflat0 pos]
      refine ⟨Nat.le_refl ti, by simp [fitCount], by simp [fitCount],
        by simp [fitCount], ?_⟩
      show flatRem table_id ((t :: rest).drop (ti - ti)) ti pos = _
      rw [Nat.sub_self, List.drop_zero, hflat0 pos]
      simp [fitCount]

/-- Every record length in the remainder of a request is at least
sizeof(struct ofp_flow_stats). -/
theorem remFlows_ge (ch : FlowChain) (table_id : Nat) (s : FlowStatsState) :
    ∀ x ∈ remFlows ch table_id s, 88 ≤ x := by
  intro x hx
  unfold remFlows at hx
  split at hx
  · obtain ⟨a, _, rfl⟩ := List.mem_map.mp hx
    unfold flowRecLen
    omega
  · exact flatRem_ge table_id _ _ _ x hx

/-- How dp_genl_openflow_dumpit frames each return value of
flow_stats_dump: 0 sends a final fragment with REPLY_MORE clear, 1 sends
a fragment with REPLY_MORE set and keeps the dump open, a negative
return aborts the dump with that error and no fragment. -/
theorem dumpit_flow_cases (ch : FlowChain) (table_id cap : Nat)
    (s : FlowStatsState) :
    ((flow_stats_dump ch table_id cap s).ret = 0 →
      dumpit_flow ch table_id cap s =
        (some { more := false,
                body_len := (flow_stats_dump ch table_id cap s).body_len,
                emitted := (flow_stats_dump ch table_id cap s).emitted },
         (flow_stats_dump ch table_id cap s).s, 0, true)) ∧
    ((flow_stats_dump ch table_id cap s).ret = 1 →
      dumpit_flow ch table_id cap s =
        (some { more := true,
                body_len := (flow_stats_dump ch table_id cap s).body_len,
                emitted := (flow_stats_dump ch table_id cap s).emitted },
         (flow_stats_dump ch table_id cap s).s, 0, false)) ∧
    ((flow_stats_dump ch table_id cap s).ret = -ENOMEM →
      dumpit_flow ch table_id cap s =
        (none, (flow_stats_dump ch table_id cap s).s, -ENOMEM, true)) := by
  refine ⟨?_, ?_, ?_⟩
  · intro h
    unfold dumpit_flow
    rw [h]
    simp
  · intro h
    unfold dumpit_flow
    rw [h]
    simp
  · intro h
    unfold dumpit_flow
    rw [h]
    rw [if_neg (by unfold ENOMEM; omega)]

/-- One flow_stats_dump call emits the admissible head run of the
remaining records (ascending table order), reports its byte count,
leaves a cursor whose remainder is exactly the rest, and classifies the
outcome: done when everything fit, more when something was emitted but
not all, -ENOMEM when not even the first record fit. -/
theorem flow_stats_dump_core (ch : FlowChain) (table_id cap : Nat)
    (s : FlowStatsState) :
    (flow_stats_dump ch table_id cap s).emitted =
      (remFlows ch table_id s).take
        (fitCount cap 0 (remFlows ch table_id s)) ∧
    (flow_stats_dump ch table_id cap s).body_len =
      ((remFlows ch table_id s).take
        (fitCount cap 0 (remFlows ch table_id s))).sum ∧
    remFlows ch table_id (flow_stats_dump ch table_id cap s).s =
      (remFlows ch table_id s).drop
        (fitCount cap 0 (remFlows ch table_id s)) ∧
    (flow_stats_dump ch table_id cap s).ret =
      (if fitCount cap 0 (remFlows ch table_id s) =
          (remFlows ch table_id s).length then 0
       else if 0 < fitCount cap 0 (remFlows ch table_id s) then 1
       else -ENOMEM) := by
  by_cases h254 : table_id = 254
  · have hiter : table_iterate cap ch.emerg s.position 0 =
        table_iterate_go cap (ch.emerg.drop s.position) s.position 0 := rfl
    obtain ⟨ite, itu, itp, its⟩ :=
      table_iterate_go_spec cap (ch.emerg.drop s.position) s.position 0
    have hlen : ((ch.emerg.drop s.position).map flowRecLen).length =
        (ch.emerg.drop s.position).length := List.length_map _ _
    have hR : remFlows ch table_id s =
        (ch.emerg.drop s.position).map flowRecLen := by
      unfold remFlows
      rw [if_pos h254]
    have hdump : flow_stats_dump ch table_id cap s =
        { s := { s with
            position := (table_iterate cap ch.emerg s.position 0).pos },
          body_len := (table_iterate cap ch.emerg s.position 0).used,
          ret := if !(table_iterate cap ch.emerg s.position 0).stop then 0
                 else if 0 < (table_iterate cap ch.emerg s.position 0).used
                 then 1 else -ENOMEM,
          emitted := (table_iterate cap ch.emerg s.position 0).emitted } := by
      unfold flow_stats_dump
      rw [if_pos h254]
    rw [hdump, hR]
    refine ⟨?_, ?_, ?_, ?_⟩
    · show (table_iterate cap ch.emerg s.position 0).emitted = _
      rw [hiter, ite]
    · show (table_iterate cap ch.emerg s.position 0).used = _
      rw [hiter, itu]
      omega
    · show remFlows ch table_id
          { s with position := (table_iterate cap ch.emerg s.position 0).pos } = _
      unfold remFlows
      rw [if_pos h254]
      show (ch.emerg.drop (table_iterate cap ch.emerg s.position 0).pos).map
          flowRecLen = _
      rw [hiter, itp, ← List.drop_drop, List.map_drop]
    · show (if !(table_iterate cap ch.emerg s.position 0).stop then (0 : Int)
          else if 0 < (table_iterate cap ch.emerg s.position 0).used then 1
          else -ENOMEM) = _
      by_cases hm : fitCount cap 0 ((ch.emerg.drop s.position).map flowRecLen) =
          ((ch.emerg.drop s.position).map flowRecLen).length
      · rw [if_pos hm]
        have hsf : (table_iterate_go cap (ch.emerg.drop s.position)
            s.position 0).stop = false := its.mpr (by rw [← hlen]; exact hm)
        rw [hiter, hsf]
        simp
      · rw [if_neg hm]
        have hst : (table_iterate_go cap (ch.emerg.drop s.position)
            s.position 0).stop = true := by
          cases hq : (table_iterate_go cap (ch.emerg.drop s.position)
              s.position 0).stop
          · exact absurd (by rw [hlen]; exact its.mp hq) hm
          · rfl
        rw [hiter, hst]
        simp only [Bool.not_true, Bool.false_eq_true, if_false]
        by_cases hpos : 0 < fitCount cap 0
            ((ch.emerg.drop s.position).map flowRecLen)
        · rw [if_pos hpos, if_pos ?_]
          rw [itu]
          have := take_sum_pos ((ch.emerg.drop s.position).map flowRecLen)
            (fitCount cap 0 ((ch.emerg.drop s.position).map flowRecLen)) hpos
            (fitCount_le_length cap _ 0)
            (by
              intro x hx
              obtain ⟨a, _, rfl⟩ := List.mem_map.mp hx
              unfold flowRecLen
              omega)
          omega
        · rw [if_neg hpos, if_neg ?_]
          rw [itu]
          have hm0 : fitCount cap 0
              ((ch.emerg.drop s.position).map flowRecLen) = 0 := by omega
          rw [hm0]
          simp
  · have hloopfacts := flow_dump_loop_spec cap table_id
      (ch.tables.drop s.table_idx) s.table_idx s.position 0
    obtain ⟨lti, lem, lus, lst, ldr⟩ := hloopfacts
    have hR : remFlows ch table_id s =
        flatRem table_id (ch.tables.drop s.table_idx) s.table_idx
          s.position := by
      unfold remFlows
      rw [if_neg h254]
    have hdump : flow_stats_dump ch table_id cap s =
        { s := { table_idx := (flow_dump_loop cap table_id
                   (ch.tables.drop s.table_idx) s.table_idx s.position 0).ti,
                 position := (flow_dump_loop cap table_id
                   (ch.tables.drop s.table_idx) s.table_idx s.position 0).pos },
          body_len := (flow_dump_loop cap table_id
            (ch.tables.drop s.table_idx) s.table_idx s.position 0).used,
          ret := if !(flow_dump_loop cap table_id
                   (ch.tables.drop s.table_idx) s.table_idx s.position 0).stopped
                 then 0
                 else if 0 < (flow_dump_loop cap table_id
                   (ch.tables.drop s.table_idx) s.table_idx s.position 0).used
                 then 1 else -ENOMEM,
          emitted := (flow_dump_loop cap table_id
            (ch.tables.drop s.table_idx) s.table_idx s.position 0).emitted } := by
      unfold flow_stats_dump
      rw [if_neg h254]
    rw [hdump, hR]
    refine ⟨lem, ?_, ?_, ?_⟩
    · show (flow_dump_loop cap table_id (ch.tables.drop s.table_idx)
          s.table_idx s.position 0).used = _
      rw [lus]
      omega
    · show remFlows ch table_id
          { table_idx := (flow_dump_loop cap table_id
              (ch.tables.drop s.table_idx) s.table_idx s.position 0).ti,
            position := (flow_dump_loop cap table_id
              (ch.tables.drop s.table_idx) s.table_idx s.position 0).pos } = _
      unfold remFlows
      rw [if_neg h254]
      show flatRem table_id (ch.tables.drop (flow_dump_loop cap table_id
          (ch.tables.drop s.table_idx) s.table_idx s.position 0).ti) _ _ = _
      have hdd : ch.tables.drop (flow_dump_loop cap table_id
          (ch.tables.drop s.table_idx) s.table_idx s.position 0).ti =
          (ch.tables.drop s.table_idx).drop
            ((flow_dump_loop cap table_id (ch.tables.drop s.table_idx)
              s.table_idx s.position 0).ti - s.table_idx) := by
        rw [List.drop_drop]
        congr 1
        omega
      rw [hdd]
      exact ldr
    · show (if !(flow_dump_loop cap table_id (ch.tables.drop s.table_idx)
            s.table_idx s.position 0).stopped then (0 : Int)
          else if 0 < (flow_dump_loop cap table_id
            (ch.tables.drop s.table_idx) s.table_idx s.position 0).used
          then 1 else -ENOMEM) = _
      by_cases hm : fitCount cap 0 (flatRem table_id
          (ch.tables.drop s.table_idx) s.table_idx s.position) =
          (flatRem table_id (ch.tables.drop s.table_idx) s.table_idx
            s.position).length
      · rw [if_pos hm]
        have hsf : (flow_dump_loop cap table_id (ch.tables.drop s.table_idx)
            s.table_idx s.position 0).stopped = false := lst.mpr hm
        rw [hsf]
        simp
      · rw [if_neg hm]
        have hst : (flow_dump_loop cap table_id (ch.tables.drop s.table_idx)
            s.table_idx s.position 0).stopped = true := by
          cases hq : (flow_dump_loop cap table_id (ch.tables.drop s.table_idx)
              s.table_idx s.position 0).stopped
          · exact absurd (lst.mp hq) hm
          · rfl
        rw [hst]
        simp only [Bool.not_true, Bool.false_eq_true, if_false]
        rw [lus]
        by_cases hpos : 0 < fitCount cap 0 (flatRem table_id
            (ch.tables.drop s.table_idx) s.table_idx s.position)
        · have hsum : 0 < 0 + ((flatRem table_id (ch.tables.drop s.table_idx)
              s.table_idx s.position).take (fitCount cap 0 (flatRem table_id
                (ch.tables.drop s.table_idx) s.table_idx s.position))).sum := by
            have := take_sum_pos
              (flatRem table_id (ch.tables.drop s.table_idx) s.table_idx
                s.position)
              (fitCount cap 0 (flatRem table_id (ch.tables.drop s.table_idx)
                s.table_idx s.position)) hpos
              (fitCount_le_length cap _ 0)
              (fun x hx => flatRem_ge table_id _ _ _ x hx)
            omega
          rw [if_pos hsum, if_pos hpos]
        · have hm0 : fitCount cap 0 (flatRem table_id
              (ch.tables.drop s.table_idx) s.table_idx s.position) = 0 := by
            omega
          rw [if_neg hpos, hm0]
          simp

/-- Claim C1: with k eligible ports (device differs from the ingress
device; for FLOOD additionally NO_FLOOD clear), output_all hands the
frame to exactly the k eligible ports in port_list order, allocates
k - 1 clones, sends the original buffer on the last eligible port, frees
the frame unsent when k = 0, and on a clone-allocation failure frees the
original and returns -ENOMEM. -/
theorem C1_output_all_flood (ports : List BridgePort) (skbDev : Nat)
    (flood : Bool) :
    (output_all ports skbDev flood (fun _ => true)).transmits =
      (eligList ports skbDev (floodDisable flood)).map BridgePort.port_no ∧
    (output_all ports skbDev flood (fun _ => true)).clones =
      (eligList ports skbDev (floodDisable flood)).length - 1 ∧
    (output_all ports skbDev flood (fun _ => true)).origSentOn =
      ((eligList ports skbDev (floodDisable flood)).map
        BridgePort.port_no).getLast? ∧
    ((output_all ports skbDev flood (fun _ => true)).origFreed = true ↔
      eligList ports skbDev (floodDisable flood) = []) ∧
    (output_all ports skbDev flood (fun _ => true)).ret = 0 ∧
    (∀ j, j + 2 ≤ (eligList ports skbDev (floodDisable flood)).length →
      ((output_all ports skbDev flood (fun i => decide (i < j))).ret,
       (output_all ports skbDev flood (fun i => decide (i < j))).origFreed,
       (output_all ports skbDev flood (fun i => decide (i < j))).origSentOn,
       (output_all ports skbDev flood (fun i => decide (i < j))).clones) =
        (-ENOMEM, true, none, j)) := by
  have hok : output_all ports skbDev flood (fun _ => true) =
      chainLog ((eligList ports skbDev (floodDisable flood)).map
        BridgePort.port_no) 0 := by
    unfold output_all
    rw [output_all_go_ok]
    rfl
  refine ⟨?_, ?_, ?_, ?_, ?_, ?_⟩
  · rw [hok]
    cases eligList ports skbDev (floodDisable flood) with
    | nil => rfl
    | cons e rest => rfl
  · rw [hok]
    cases eligList ports skbDev (floodDisable flood) with
    | nil => rfl
    | cons e rest => simp [chainLog]
  · rw [hok]
    cases eligList ports skbDev (floodDisable flood) with
    | nil => rfl
    | cons e rest => rfl
  · rw [hok]
    cases eligList ports skbDev (floodDisable flood) with
    | nil => simp [chainLog]
    | cons e rest => simp [chainLog]
  · rw [hok]
    cases eligList ports skbDev (floodDisable flood) with
    | nil => rfl
    | cons e rest => rfl
  · intro j hj
    unfold output_all
    refine output_all_go_clone_fail skbDev (floodDisable flood) j ports none 0
      (by omega) ?_
    simp only [Option.isSome_none, Bool.false_eq_true, if_false]
    omega

/-- Claim C1, witness: flooding from device 10 over ports 1 (ingress
device), 2 and 3 transmits on 2 then 3 with one clone, the original
going out on 3; with the clone allocator failing at once, the original
is freed and -ENOMEM returned; over the single port 1 the frame is
dropped without a transmit. -/
theorem C1_output_all_flood_witness :
    (output_all [⟨1, 10, 0⟩, ⟨2, 20, 0⟩, ⟨3, 30, 0⟩] 10 true
      (fun _ => true)).transmits = [2, 3] ∧
    (output_all [⟨1, 10, 0⟩, ⟨2, 20, 0⟩, ⟨3, 30, 0⟩] 10 true
      (fun _ => true)).clones = 1 ∧
    (output_all [⟨1, 10, 0⟩, ⟨2, 20, 0⟩, ⟨3, 30, 0⟩] 10 true
      (fun _ => true)).origSentOn = some 3 ∧
    (output_all [⟨1, 10, 0⟩, ⟨2, 20, 0⟩, ⟨3, 30, 0⟩] 10 true
      (fun _ => true)).ret = 0 ∧
    ((output_all [⟨1, 10, 0⟩, ⟨2, 20, 0⟩, ⟨3, 30, 0⟩] 10 true
        (fun i => decide (i < 0))).ret,
     (output_all [⟨1, 10, 0⟩, ⟨2, 20, 0⟩, ⟨3, 30, 0⟩] 10 true
        (fun i => decide (i < 0))).origFreed,
     (output_all [⟨1, 10, 0⟩, ⟨2, 20, 0⟩, ⟨3, 30, 0⟩] 10 true
        (fun i => decide (i < 0))).origSentOn,
     (output_all [⟨1, 10, 0⟩, ⟨2, 20, 0⟩, ⟨3, 30, 0⟩] 10 true
        (fun i => decide (i < 0))).clones) = (-ENOMEM, true, none, 0) ∧
    (output_all [⟨1, 10, 0⟩] 10 true (fun _ => true)).origFreed = true := by
  refine ⟨(C1_output_all_flood [⟨1, 10, 0⟩, ⟨2, 20, 0⟩, ⟨3, 30, 0⟩] 10
        true).1.trans (by decide),
    (C1_output_all_flood [⟨1, 10, 0⟩, ⟨2, 20, 0⟩, ⟨3, 30, 0⟩] 10
        true).2.1.trans (by decide),
    (C1_output_all_flood [⟨1, 10, 0⟩, ⟨2, 20, 0⟩, ⟨3, 30, 0⟩] 10
        true).2.2.1.trans (by decide),
    (C1_output_all_flood [⟨1, 10, 0⟩, ⟨2, 20, 0⟩, ⟨3, 30, 0⟩] 10
        true).2.2.2.2.1,
    (C1_output_all_flood [⟨1, 10, 0⟩, ⟨2, 20, 0⟩, ⟨3, 30, 0⟩] 10
        true).2.2.2.2.2 0 (by decide),
    (C1_output_all_flood [⟨1, 10, 0⟩] 10 true).2.2.2.1.mpr (by decide)⟩

/-- Claim C4: a flow-statistics dump visits tables in ascending index
order (or only the requested table, or the emergency table for id 0xfe -
all encoded in the remainder list remFlows), emits the admissible head
run of the remaining records with its byte count, and preserves the
cursor so that the remainder after the call is exactly the unsent rest;
dp_genl_openflow_dumpit sends the fragment with REPLY_MORE set exactly
when more records remain, with REPLY_MORE clear on the final fragment,
and aborts the dump with -ENOMEM when not even the first remaining
record fits the empty buffer. -/
theorem C4_flow_stats_dump_resumable (ch : FlowChain) (table_id cap : Nat)
    (s : FlowStatsState) :
    (flow_stats_dump ch table_id cap s).emitted =
      (remFlows ch table_id s).take
        (fitCount cap 0 (remFlows ch table_id s)) ∧
    (flow_stats_dump ch table_id cap s).body_len =
      ((remFlows ch table_id s).take
        (fitCount cap 0 (remFlows ch table_id s))).sum ∧
    remFlows ch table_id (flow_stats_dump ch table_id cap s).s =
      (remFlows ch table_id s).drop
        (fitCount cap 0 (remFlows ch table_id s)) ∧
    (fitCount cap 0 (remFlows ch table_id s) =
        (remFlows ch table_id s).length →
      (flow_stats_dump ch table_id cap s).ret = 0 ∧
      dumpit_flow ch table_id cap s =
        (some { more := false,
                body_len := (flow_stats_dump ch table_id cap s).body_len,
                emitted := (flow_stats_dump ch table_id cap s).emitted },
         (flow_stats_dump ch table_id cap s).s, 0, true)) ∧
    (0 < fitCount cap 0 (remFlows ch table_id s) →
      fitCount cap 0 (remFlows ch table_id s) ≠
        (remFlows ch table_id s).length →
      (flow_stats_dump ch table_id cap s).ret = 1 ∧
      dumpit_flow ch table_id cap s =
        (some { more := true,
                body_len := (flow_stats_dump ch table_id cap s).body_len,
                emitted := (flow_stats_dump ch table_id cap s).emitted },
         (flow_stats_dump ch table_id cap s).s, 0, false)) ∧
    (fitCount cap 0 (remFlows ch table_id s) = 0 →
      remFlows ch table_id s ≠ [] →
      (flow_stats_dump ch table_id cap s).ret = -ENOMEM ∧
      dumpit_flow ch table_id cap s =
        (none, (flow_stats_dump ch table_id cap s).s, -ENOMEM, true)) := by
  obtain ⟨he, hb, hr, hret⟩ := flow_stats_dump_core ch table_id cap s
  obtain ⟨d0, d1, dm⟩ := dumpit_flow_cases ch table_id cap s
  refine ⟨he, hb, hr, ?_, ?_, ?_⟩
  · intro hm
    have h0 : (flow_stats_dump ch table_id cap s).ret = 0 := by
      rw [hret, if_pos hm]
    exact ⟨h0, d0 h0⟩
  · intro hpos hne
    have h1 : (flow_stats_dump ch table_id cap s).ret = 1 := by
      rw [hret, if_neg hne, if_pos hpos]
    exact ⟨h1, d1 h1⟩
  · intro hm0 hRne
    have hne : fitCount cap 0 (remFlows ch table_id s) ≠
        (remFlows ch table_id s).length := by
      intro h
      apply hRne
      rw [hm0] at h
      exact List.length_eq_zero.mp h.symm
    have hE : (flow_stats_dump ch table_id cap s).ret = -ENOMEM := by
      rw [hret, if_neg hne, if_neg (by omega)]
    exact ⟨hE, dm hE⟩

/-- Claim C4, witness: a wildcard dump of two tables with flows of record
lengths 88, 88, 88 over a 200-byte body emits the first two records,
keeps the cursor at table 0 position 2 with REPLY_MORE set; with a
1000-byte body the dump finishes in one fragment with REPLY_MORE clear;
with a 50-byte body it aborts with -ENOMEM. -/
theorem C4_flow_stats_dump_resumable_witness :
    (flow_stats_dump ⟨[[0, 0, 0], [4]], []⟩ 255 200
      (flow_stats_init 255)).ret = 1 ∧
    dumpit_flow ⟨[[0, 0, 0], [4]], []⟩ 255 200 (flow_stats_init 255) =
      (some { more := true, body_len := 176, emitted := [88, 88] },
       { table_idx := 0, position := 2 }, 0, false) ∧
    remFlows ⟨[[0, 0, 0], [4]], []⟩ 255
      (flow_stats_dump ⟨[[0, 0, 0], [4]], []⟩ 255 200
        (flow_stats_init 255)).s = [88, 92] ∧
    (flow_stats_dump ⟨[[0, 0, 0], [4]], []⟩ 255 1000
      (flow_stats_init 255)).ret = 0 ∧
    (flow_stats_dump ⟨[[0, 0, 0], [4]], []⟩ 255 50
      (flow_stats_init 255)).ret = -ENOMEM := by
  refine ⟨((C4_flow_stats_dump_resumable ⟨[[0, 0, 0], [4]], []⟩ 255 200
      (flow_stats_init 255)).2.2.2.2.1 (by decide) (by decide)).1,
    (((C4_flow_stats_dump_resumable ⟨[[0, 0, 0], [4]], []⟩ 255 200
      (flow_stats_init 255)).2.2.2.2.1 (by decide) (by decide)).2).trans
      (by decide),
    ((C4_flow_stats_dump_resumable ⟨[[0, 0, 0], [4]], []⟩ 255 200
      (flow_stats_init 255)).2.2.1).trans (by decide),
    ((C4_flow_stats_dump_resumable ⟨[[0, 0, 0], [4]], []⟩ 255 1000
      (flow_stats_init 255)).2.2.2.1 (by decide)).1,
    ((C4_flow_stats_dump_resumable ⟨[[0, 0, 0], [4]], []⟩ 255 50
      (flow_stats_init 255)).2.2.2.2.2 (by decide) (by decide)).1⟩

end Openflow
